import Mathlib

/-!
Verification of the QubitQuest tutorial application (qubitquest_app.py).

The development shallowly embeds the core pipeline of the app:
text handling for the populate-editor button, the four lesson builders,
a model of the Python exec step that the Run Circuit handler performs,
and the run handler itself with its single try/except error channel.
Text is modelled as List Char; circuits as their instruction sequence.
-/

namespace QubitQuest

/-! ## Text model

Python string operations used by the app, modelled over List Char.
-/

/-- Split at newline characters, Python str.split with separator newline:
the empty text yields one empty line, a trailing newline yields a trailing
empty line. -/
def splitOnNLAux : List Char → List Char → List (List Char)
  | [], acc => [acc.reverse]
  | c :: rest, acc =>
    if c = '\n' then acc.reverse :: splitOnNLAux rest []
    else splitOnNLAux rest (c :: acc)

def splitOnNL (s : List Char) : List (List Char) :=
  splitOnNLAux s []

/-- Replace carriage-return and carriage-return//newline line boundaries by a
single newline, the normalisation step behind Python str.splitlines.
Exotic boundary characters (vertical tab, form feed, unicode separators)
do not occur in the app and are not modelled. -/
def normalizeNL : List Char → List Char
  | [] => []
  | '\r' :: '\n' :: rest => '\n' :: normalizeNL rest
  | '\r' :: rest => '\n' :: normalizeNL rest
  | c :: rest => c :: normalizeNL rest

/-- Drop a final empty line, if present. -/
def dropLastEmpty (ls : List (List Char)) : List (List Char) :=
  match ls.getLast? with
  | some [] => ls.dropLast
  | _ => ls

/-- Python str.splitlines: split at line boundaries, with no trailing empty
line for text ending in a newline, and no line at all for empty text. -/
def pySplitlines (s : List Char) : List (List Char) :=
  dropLastEmpty (splitOnNL (normalizeNL s))

/-- Join lines with newline separators, Python str.join with newline. -/
def joinNL : List (List Char) → List Char
  | [] => []
  | [p] => p
  | p :: q :: ps => p ++ '\n' :: joinNL (q :: ps)

/-- The indentation unit prepended by the populate handler (line 152). -/
def indentUnit : List Char := [' ', ' ', ' ', ' ']

/-! ## Populate handler (lines 148 to 153)

The button handler splits the default code into lines; when the line list
is nonempty it keeps the first line, indents every later line by one unit,
and assigns the joined text to the editor session state; when the line
list is empty it makes no assignment, leaving the editor state as it was.
-/

/-- One populate-button press: from the default code and the current editor
contents, the editor contents afterwards. -/
def populateStep (defaultCode editorCode : List Char) : List Char :=
  match pySplitlines defaultCode with
  | [] => editorCode
  | funcDef :: body => joinNL (funcDef :: body.map (fun ln => indentUnit ++ ln))

/-- The snippet-to-text transformation of the Snippet Transfer component, as a
pure function of the snippet: the editor text the handler produces starting
from the initial (empty) editor state. -/
def populate (snippet : List Char) : List Char :=
  populateStep snippet []

/-! ## Circuits and the four lesson builders (lines 9 to 58)

A braket Circuit is modelled as its instruction sequence; each builder
mirrors its source body line by line: construct an empty circuit, apply
the gate and measurement methods, return the circuit. The braket methods
append an instruction and return the mutated circuit.
-/

inductive Instr where
  | measure (q : Nat)
  | h (q : Nat)
  | x (q : Nat)
  | cnot (control target : Nat)
deriving DecidableEq

/-- Circuit(): the freshly constructed circuit holds no instructions. -/
def circuitNew : List Instr := []

def cMeasure (c : List Instr) (q : Nat) : List Instr := c ++ [.measure q]

def cH (c : List Instr) (q : Nat) : List Instr := c ++ [.h q]

def cX (c : List Instr) (q : Nat) : List Instr := c ++ [.x q]

def cCnot (c : List Instr) (control target : Nat) : List Instr :=
  c ++ [.cnot control target]

def build_measure : List Instr := cMeasure circuitNew 0

def build_hadamard : List Instr := cMeasure (cH circuitNew 0) 0

def build_pauli_x : List Instr := cMeasure (cX circuitNew 0) 0

def build_cnot : List Instr := cMeasure (cMeasure (cCnot circuitNew 0 1) 0) 1

/-- Modelled from the spec: the backend library renders a circuit as text
that mentions each gate and measurement in sequence (the braket ascii
diagram itself is outside the sources); one line of text per instruction,
in circuit order. -/
def instrRender : Instr → String
  | .measure q => "measure " ++ toString q
  | .h q => "h " ++ toString q
  | .x q => "x " ++ toString q
  | .cnot c t => "cnot " ++ toString c ++ " " ++ toString t

def renderCircuit (c : List Instr) : String :=
  String.intercalate "; " (c.map instrRender)

/-! ## Model of the Python exec step (lines 168 to 171)

The Run Circuit handler executes the learner text with
exec_env holding the single binding Circuit, then calls exec_env with key
build as a zero-argument function. User source text is modelled as a list
of top-level statements of a small statement language covering the
constructs the lesson snippets (and the failure scenarios of the spec)
use: imports, function definitions, assignments, expression statements
and raise. Calls of user-defined functions inside expressions are outside
the modelled fragment; the one call the pipeline performs, of build
itself, is modelled explicitly.
-/

inductive Expr where
  | name (s : String)
  | intLit (n : Int)
  | callZero (f : Expr)
  | methodCall (obj : String) (m : String) (args : List Nat)
deriving DecidableEq

inductive BStmt where
  | assign (x : String) (e : Expr)
  | exprStmt (e : Expr)
  | ret (e : Expr)
  | raiseStmt (m : String)
deriving DecidableEq

inductive TStmt where
  | importMod (m : String)
  | defFun (name : String) (params : Nat) (body : List BStmt)
  | assign (x : String) (e : Expr)
  | exprStmt (e : Expr)
  | raiseStmt (m : String)
deriving DecidableEq

inductive Val where
  | vCircuitCtor
  | vCircuit (c : List Instr)
  | vInt (n : Int)
  | vNone
  | vFunc (params : Nat) (body : List BStmt)
  | vModule (m : String)
  | vBuiltin (name : String)
deriving DecidableEq

/-- Python exceptions reaching the except clause; the message texts follow
the CPython ones in shape. -/
inductive PyErr where
  | nameError (n : String)
  | keyError (n : String)
  | typeError (m : String)
  | attributeError (m : String)
  | badSource (m : String)
  | importError (n : String)
  | userError (m : String)
deriving DecidableEq

def PyErr.message : PyErr → String
  | .nameError n => "name " ++ n ++ " is not defined"
  | .keyError n => n
  | .typeError m => m
  | .attributeError m => "object has no attribute " ++ m
  | .badSource m => "invalid syntax: " ++ m
  | .importError n => "__import__ not found: " ++ n
  | .userError m => m

instance instDecEqExcept {e a : Type} [DecidableEq e] [DecidableEq a] :
    DecidableEq (Except e a) := fun x y =>
  match x, y with
  | .ok u, .ok v =>
    if h : u = v then isTrue (by rw [h]) else isFalse (by intro hc; cases hc; exact h rfl)
  | .error u, .error v =>
    if h : u = v then isTrue (by rw [h]) else isFalse (by intro hc; cases hc; exact h rfl)
  | .ok _, .error _ => isFalse (by intro hc; cases hc)
  | .error _, .ok _ => isFalse (by intro hc; cases hc)

abbrev Env := List (String × Val)

def lookupEnv (env : Env) (n : String) : Option Val :=
  (env.find? (fun p => p.1 == n)).map (·.2)

def setEnv (env : Env) (n : String) (v : Val) : Env :=
  (n, v) :: env.filter (fun p => p.1 != n)

/-- Modelled from Python exec semantics: a globals dict that lacks a
builtins key has the full builtins module injected into it, so the
executed text can resolve names such as open and the import machinery.
Three representative builtins are modelled. -/
def pythonBuiltins : Env :=
  [("open", .vBuiltin "open"), ("print", .vBuiltin "print"),
   ("__import__", .vBuiltin "__import__")]

/-- Name resolution inside the executed text: the exec globals first, the
ambient builtins second. -/
def lookupName (builtins env : Env) (n : String) : Option Val :=
  match lookupEnv env n with
  | some v => some v
  | none => lookupEnv builtins n

/-- The braket circuit methods the lessons use: each appends its
instruction and returns the (mutated) circuit. -/
def circuitMethod (c : List Instr) (m : String) (args : List Nat) :
    Except PyErr (List Instr) :=
  match m, args with
  | "measure", [q] => .ok (cMeasure c q)
  | "h", [q] => .ok (cH c q)
  | "x", [q] => .ok (cX c q)
  | "cnot", [a, b] => .ok (cCnot c a b)
  | _, _ => .error (.attributeError m)

/-- Expression evaluation; method calls on a named circuit rebind the name
to the mutated circuit, matching the in-place mutation of braket circuits. -/
def evalExpr (builtins : Env) : Env → Expr → Except PyErr (Env × Val)
  | env, .name s =>
    match lookupName builtins env s with
    | some v => .ok (env, v)
    | none => .error (.nameError s)
  | env, .intLit n => .ok (env, .vInt n)
  | env, .callZero f => do
    let (env1, fv) ← evalExpr builtins env f
    match fv with
    | .vCircuitCtor => .ok (env1, .vCircuit circuitNew)
    | .vBuiltin "print" => .ok (env1, .vNone)
    | .vBuiltin b => .error (.typeError (b ++ " with zero arguments"))
    | _ => .error (.typeError "object is not callable here")
  | env, .methodCall obj m args =>
    match lookupName builtins env obj with
    | some (.vCircuit c) =>
      match circuitMethod c m args with
      | .ok c2 => .ok (setEnv env obj (.vCircuit c2), .vCircuit c2)
      | .error e => .error e
    | some _ => .error (.attributeError m)
    | none => .error (.nameError obj)

/-- Execution of a function body: statements run in order, a return
statement yields its value, falling off the end yields None. -/
def execBody (builtins : Env) : Env → List BStmt → Except PyErr (Env × Val)
  | env, [] => .ok (env, .vNone)
  | env, s :: rest =>
    match s with
    | .assign x e => do
      let (env1, v) ← evalExpr builtins env e
      execBody builtins (setEnv env1 x v) rest
    | .exprStmt e => do
      let (env1, _) ← evalExpr builtins env e
      execBody builtins env1 rest
    | .ret e => do
      let (env1, v) ← evalExpr builtins env e
      .ok (env1, v)
    | .raiseStmt m => .error (.userError m)

/-- Calling a value with zero arguments, as exec_env with key build is
called on line 171. -/
def callZeroTop (builtins : Env) (globals : Env) : Val → Except PyErr Val
  | .vFunc 0 body =>
    match execBody builtins globals body with
    | .ok (_, v) => .ok v
    | .error e => .error e
  | .vFunc (_ + 1) _ =>
    .error (.typeError "build missing required positional arguments")
  | .vCircuitCtor => .ok (.vCircuit circuitNew)
  | .vBuiltin "print" => .ok .vNone
  | _ => .error (.typeError "object is not callable")

/-- Top-level execution of the user text inside exec. An import resolves
the import machinery through name resolution, so it succeeds exactly when
the builtins are reachable. -/
def execTop (builtins : Env) : Env → List TStmt → Except PyErr Env
  | env, [] => .ok env
  | env, s :: rest =>
    match s with
    | .importMod m =>
      match lookupName builtins env "__import__" with
      | some _ => execTop builtins (setEnv env m (.vModule m)) rest
      | none => .error (.importError m)
    | .defFun n p body => execTop builtins (setEnv env n (.vFunc p body)) rest
    | .assign x e => do
      let (env1, v) ← evalExpr builtins env e
      execTop builtins (setEnv env1 x v) rest
    | .exprStmt e => do
      let (env1, _) ← evalExpr builtins env e
      execTop builtins env1 rest
    | .raiseStmt m => .error (.userError m)

/-- A user source text reaching exec: either text the Python tokenizer
rejects, or a statement list. -/
inductive Source where
  | badSource (m : String)
  | parsed (stmts : List TStmt)
deriving DecidableEq

/-- Line 169: the globals dict handed to exec holds the single explicit
binding Circuit. -/
def exec_env : Env := [("Circuit", .vCircuitCtor)]

def execSource (builtins : Env) (src : Source) : Except PyErr Env :=
  match src with
  | .badSource m => .error (.badSource m)
  | .parsed stmts => execTop builtins exec_env stmts

/-- Lines 169 to 171: exec the text in exec_env, look the key build up in
the dict (a plain dict access, no builtins fallback), call it with zero
arguments, and hand back whatever it returns, unvalidated. -/
def compileWith (builtins : Env) (src : Source) : Except PyErr Val :=
  match execSource builtins src with
  | .error e => .error e
  | .ok env =>
    match lookupEnv env "build" with
    | none => .error (.keyError "build")
    | some v => callZeroTop builtins env v

/-- The compile step as the code performs it: the globals dict lacks a
builtins key, so Python injects the builtins module. -/
def compileSource : Source → Except PyErr Val :=
  compileWith pythonBuiltins

/-- Modelled from the spec: the design-required sandbox, a namespace
exposing exactly the Circuit constructor and nothing else, with no
builtins reachable. -/
def compileSandboxed : Source → Except PyErr Val :=
  compileWith []

/-! ## Run handler and backend dispatch (lines 162 to 180)

The backend radio yields one of two choices; the shots slider yields a
value within its declared range; the Run Circuit button executes the
whole pipeline inside one try/except whose handler shows a single error
message. The two backend devices are external collaborators and are
modelled as an oracle mapping a submitted request to counts or a failure.
-/

inductive BackendChoice where
  | simulator
  | ionq
deriving DecidableEq

/-- Line 177: the success notice carries the second word of the radio
label, Simulator for the simulator choice and IonQ for the QPU choice. -/
def backendLabel : BackendChoice → String
  | .simulator => "Simulator"
  | .ionq => "IonQ"

inductive Device where
  | localSimulator
  | awsDevice (arn : String)
deriving DecidableEq

/-- Line 174: the device is the local simulator for the simulator choice,
otherwise the fixed IonQ device identifier. -/
def chooseDevice : BackendChoice → Device
  | .simulator => .localSimulator
  | .ionq => .awsDevice "arn:aws:braket:us-west-2::device/qpu/ionq/H1"

/-- str applied to the value build returned, shown by st.text on line 173. -/
def pyStrVal : Val → String
  | .vCircuit c => renderCircuit c
  | .vInt n => toString n
  | .vNone => "None"
  | .vCircuitCtor => "Circuit"
  | .vFunc _ _ => "function build"
  | .vModule m => "module " ++ m
  | .vBuiltin b => "builtin " ++ b

abbrev Counts := List (String × Nat)

/-- The external behaviour of device.run followed by task.result(): counts
on success, an exception message on any submission or retrieval failure. -/
abbrev Oracle := Device → List Instr → Nat → Except String Counts

structure RunRequest where
  backend : BackendChoice
  circuit : List Instr
  shots : Nat
deriving DecidableEq

/-- Everything the handler writes to the page during one run: st.text,
st.success, st.error and st.bar_chart calls, in their respective sinks. -/
structure DisplayLog where
  texts : List String
  successes : List String
  errors : List String
  charts : List Counts
deriving DecidableEq

/-- Line 180: the one error format of the except clause. -/
def errorDisplay (m : String) : String :=
  "Error in your build() function: " ++ m

/-- The exception device.run raises when handed a value that is not a
circuit; the braket devices only accept circuit objects. -/
def invalidCircuitMessage : String := "run requires a Circuit"

/-- Lines 167 to 180: compile the text, show the textual preview, dispatch
to the chosen device with the requested shots, then show the success
notice and the chart; any exception anywhere in the block instead shows
the single formatted error message. Also records the request that reached
a backend, when one did. -/
def runHandler (oracle : Oracle) (src : Source) (backend : BackendChoice)
    (shots : Nat) : DisplayLog × Option RunRequest :=
  match compileSource src with
  | .error e =>
    (⟨[], [], [errorDisplay e.message], []⟩, none)
  | .ok v =>
    match v with
    | .vCircuit c =>
      match oracle (chooseDevice backend) c shots with
      | .ok counts =>
        (⟨[pyStrVal v], ["Results (" ++ backendLabel backend ++ "):"], [], [counts]⟩,
         some ⟨backend, c, shots⟩)
      | .error m =>
        (⟨[pyStrVal v], [], [errorDisplay m], []⟩, some ⟨backend, c, shots⟩)
    | _ =>
      (⟨[pyStrVal v], [], [errorDisplay invalidCircuitMessage], []⟩, none)

/-- Modelled from the spec: the shots widget on line 164 is declared with
bounds 100 and 5000 and yields only values within them; an arbitrary raw
position is clamped to the declared range. -/
def sliderValue (lo hi raw : Nat) : Nat := max lo (min hi raw)

def shotsValue (raw : Nat) : Nat := sliderValue 100 5000 raw

/-- One press of the Run Circuit button, with the shots value coming from
the slider. -/
def runAction (oracle : Oracle) (src : Source) (backend : BackendChoice)
    (rawShots : Nat) : DisplayLog × Option RunRequest :=
  runHandler oracle src backend (shotsValue rawShots)

/-! ## Session state and tutorial events -/

/-- The per-session mutable state the app keeps: the started flag and the
editor contents. -/
structure Session where
  started : Bool
  editor : List Char
deriving DecidableEq

inductive Event where
  | populateClick
  | runClick (userCode : Source) (backend : BackendChoice) (rawShots : Nat)

/-- One user action on the tutorial page: the populate button rewrites the
editor from the default code; the run button executes the pipeline and
writes only to the display sinks, never to the session state. -/
def tutorialStep (oracle : Oracle) (defaultCode : List Char) (sess : Session) :
    Event → Session × DisplayLog
  | .populateClick =>
    ({ sess with editor := populateStep defaultCode sess.editor },
     ⟨[], [], [], []⟩)
  | .runClick src b raw => (sess, (runAction oracle src b raw).1)

/-! ## Docstrings, getdoc and the lesson registry (lines 9 to 82, 141)

Each builder carries a documentation string that is the reference snippet
shown to the learner. The raw strings below reproduce the source bytes:
body lines are written at indentation four inside the function, and a
line of four spaces stands before the closing quotes.
-/

def doc_build_measure : List Char :=
  ("def build():\n    circuit = Circuit()\n    circuit.measure(0)\n" ++
   "    return circuit\n    ").toList

def doc_build_hadamard : List Char :=
  ("def build():\n    circuit = Circuit()\n    circuit.h(0)\n" ++
   "    circuit.measure(0)\n    return circuit\n    ").toList

def doc_build_pauli_x : List Char :=
  ("def build():\n    circuit = Circuit()\n    circuit.x(0)\n" ++
   "    circuit.measure(0)\n    return circuit\n    ").toList

def doc_build_cnot : List Char :=
  ("def build():\n    circuit = Circuit()\n    circuit.cnot(0, 1)\n" ++
   "    circuit.measure(0)\n    circuit.measure(1)\n" ++
   "    return circuit\n    ").toList

def lstripSpaces (l : List Char) : List Char :=
  l.dropWhile (fun c => c == ' ')

def isBlank (l : List Char) : Bool :=
  (lstripSpaces l).isEmpty

def indentOf (l : List Char) : Nat :=
  l.length - (lstripSpaces l).length

def dropTrailingEmpties (ls : List (List Char)) : List (List Char) :=
  (ls.reverse.dropWhile List.isEmpty).reverse

def dropLeadingEmpties (ls : List (List Char)) : List (List Char) :=
  ls.dropWhile List.isEmpty

/-- Modelled from Python stdlib inspect.getdoc, used on line 141: the
common leading whitespace margin of the lines after the first is removed,
the first line is left-stripped, and leading and trailing blank lines are
dropped. Tab expansion is omitted, the docstrings holding no tabs. -/
def cleandoc (doc : List Char) : List Char :=
  match splitOnNL doc with
  | [] => []
  | first :: rest =>
    let margins := (rest.filter (fun l => !(isBlank l))).map indentOf
    let stripped :=
      match margins with
      | [] => rest
      | m :: ms => rest.map (fun l => l.drop (ms.foldl Nat.min m))
    joinNL (dropLeadingEmpties (dropTrailingEmpties (lstripSpaces first :: stripped)))

/-- One entry of the LESSONS mapping; the latex and description fields are
display-only glue and are not modelled. -/
structure LessonEntry where
  name : String
  builder : List Instr
  doc : List Char
deriving DecidableEq

def LESSONS : List LessonEntry :=
  [⟨"Measurement Gate (M)", build_measure, doc_build_measure⟩,
   ⟨"Hadamard Gate (H)", build_hadamard, doc_build_hadamard⟩,
   ⟨"Pauli-X Gate (X)", build_pauli_x, doc_build_pauli_x⟩,
   ⟨"CNOT Gate", build_cnot, doc_build_cnot⟩]

/-! ## Reading snippet text into the statement language

Python itself reads the editor text; for the concrete lesson snippets the
fragment reader below maps the text onto the statement language, so that
the displayed snippet can be run through the compile model.
-/

def isIdentChar (c : Char) : Bool :=
  c.isAlpha || c.isDigit || c == '_'

def readIdent (l : List Char) : Option (String × List Char) :=
  let idc := l.takeWhile isIdentChar
  let rest := l.dropWhile isIdentChar
  match idc with
  | [] => none
  | c :: _ => if c.isDigit then none else some (String.mk idc, rest)

def readNat (l : List Char) : Option (Nat × List Char) :=
  let ds := l.takeWhile Char.isDigit
  let rest := l.dropWhile Char.isDigit
  if ds.isEmpty then none
  else some (ds.foldl (fun n c => 10 * n + (c.toNat - 48)) 0, rest)

def expectChars (pat l : List Char) : Option (List Char) :=
  if pat.isPrefixOf l then some (l.drop pat.length) else none

/-- Argument lists of the snippet method calls: one or two numerals up to
the closing parenthesis. -/
def readArgs (l : List Char) : Option (List Nat) :=
  match readNat l with
  | none => none
  | some (a, r1) =>
    if r1 = [')'] then some [a]
    else
      match expectChars (',' :: ' ' :: []) r1 with
      | none => none
      | some r2 =>
        match readNat r2 with
        | none => none
        | some (b, r3) => if r3 = [')'] then some [a, b] else none

def readBodyLine (l : List Char) : Option BStmt :=
  match expectChars ("return ".toList) l with
  | some r =>
    (match readNat r with
     | some (n, []) => some (.ret (.intLit (Int.ofNat n)))
     | _ =>
       match readIdent r with
       | some (x, []) => some (.ret (.name x))
       | _ => none)
  | none =>
    match readIdent l with
    | none => none
    | some (x, r) =>
      match expectChars (" = Circuit()".toList) r with
      | some [] => some (.assign x (.callZero (.name "Circuit")))
      | _ =>
        match expectChars ('.' :: []) r with
        | some r1 =>
          (match readIdent r1 with
           | some (m, r2) =>
             match expectChars ('(' :: []) r2 with
             | some r3 => (readArgs r3).map (fun args => BStmt.exprStmt (.methodCall x m args))
             | none => none
           | none => none)
        | none => none

def readBodyLines : List (List Char) → Option (List BStmt)
  | [] => some []
  | l :: rest => do
    let r ← expectChars indentUnit l
    let s ← readBodyLine r
    let ss ← readBodyLines rest
    pure (s :: ss)

/-- Read a populated snippet, a build definition header followed by an
indented body, into the statement language. -/
def readBuildSource (text : List Char) : Source :=
  match splitOnNL text with
  | [] => .badSource "empty"
  | header :: body =>
    if header = "def build():".toList then
      match readBodyLines body with
      | some stmts => .parsed [.defFun "build" 0 stmts]
      | none => .badSource "unsupported statement"
    else .badSource "unsupported header"

/-- The full lesson path for a snippet: getdoc, populate into the editor,
and compile what the editor then holds. -/
def compileFromDoc (doc : List Char) : Except PyErr Val :=
  compileSource (readBuildSource (populateStep (cleandoc doc) []))

/-! ## Example user programs -/

/-- The measurement-lesson text as a statement list: define build, which
constructs a circuit, measures qubit zero and returns the circuit. -/
def progBuildOk : Source :=
  .parsed [.defFun "build" 0
    [.assign "circuit" (.callZero (.name "Circuit")),
     .exprStmt (.methodCall "circuit" "measure" [0]),
     .ret (.name "circuit")]]

/-- The spec scenario text: define build returning the number five. -/
def progReturn5 : Source :=
  .parsed [.defFun "build" 0 [.ret (.intLit 5)]]

/-- A text that reaches for a capability outside the exposed namespace,
the import machinery, before defining a well-behaved build. -/
def progImportOs : Source :=
  .parsed [.importMod "os",
    .defFun "build" 0
      [.assign "circuit" (.callZero (.name "Circuit")),
       .exprStmt (.methodCall "circuit" "measure" [0]),
       .ret (.name "circuit")]]

/-! ## Supporting lemmas -/

lemma splitOnNLAux_append (p : List Char) (hp : ∀ c ∈ p, c ≠ '\n')
    (t acc : List Char) :
    splitOnNLAux (p ++ t) acc = splitOnNLAux t (p.reverse ++ acc) := by
  induction p generalizing acc with
  | nil => simp
  | cons c p ih =>
    have hc : c ≠ '\n' := hp c (List.mem_cons_self c p)
    have hp2 : ∀ d ∈ p, d ≠ '\n' := fun d hd => hp d (List.mem_cons_of_mem c hd)
    simp [splitOnNLAux, hc, ih hp2, List.append_assoc]

lemma splitOnNL_joinNL (parts : List (List Char)) (hne : parts ≠ [])
    (hnl : ∀ p ∈ parts, ∀ c ∈ p, c ≠ '\n') :
    splitOnNL (joinNL parts) = parts := by
  induction parts with
  | nil => exact absurd rfl hne
  | cons p ps ih =>
    have hp : ∀ c ∈ p, c ≠ '\n' := hnl p (List.mem_cons_self p ps)
    cases ps with
    | nil =>
      show splitOnNLAux p [] = [p]
      have h := splitOnNLAux_append p hp [] []
      simp only [List.append_nil] at h
      rw [h]
      simp [splitOnNLAux]
    | cons q qs =>
      have hqs : ∀ r ∈ q :: qs, ∀ c ∈ r, c ≠ '\n' :=
        fun r hr => hnl r (List.mem_cons_of_mem p hr)
      show splitOnNLAux (p ++ '\n' :: joinNL (q :: qs)) [] = p :: q :: qs
      rw [splitOnNLAux_append p hp]
      show splitOnNLAux ('\n' :: joinNL (q :: qs)) (p.reverse ++ []) = _
      simp only [splitOnNLAux, if_pos rfl, List.append_nil, List.reverse_reverse]
      exact congrArg (p :: ·) (ih (by simp) hqs)

lemma splitOnNLAux_no_nl (l : List Char) :
    ∀ (acc p : List Char), (∀ c ∈ acc, c ≠ '\n') →
      p ∈ splitOnNLAux l acc → ∀ c ∈ p, c ≠ '\n' := by
  induction l with
  | nil =>
    intro acc p hacc hp c hc
    simp [splitOnNLAux] at hp
    subst hp
    exact hacc c (List.mem_reverse.mp hc)
  | cons d rest ih =>
    intro acc p hacc hp c hc
    by_cases hd : d = '\n'
    · subst hd
      rw [show splitOnNLAux ('\n' :: rest) acc = acc.reverse :: splitOnNLAux rest []
        from by simp [splitOnNLAux]] at hp
      rcases List.mem_cons.mp hp with rfl | h2
      · exact hacc c (List.mem_reverse.mp hc)
      · exact ih [] p (by simp) h2 c hc
    · rw [show splitOnNLAux (d :: rest) acc = splitOnNLAux rest (d :: acc)
        from by simp [splitOnNLAux, hd]] at hp
      refine ih (d :: acc) p ?_ hp c hc
      intro e he
      rcases List.mem_cons.mp he with rfl | he2
      · exact hd
      · exact hacc e he2

lemma dropLastEmpty_mem (ls : List (List Char)) (p : List Char)
    (hp : p ∈ dropLastEmpty ls) : p ∈ ls := by
  unfold dropLastEmpty at hp
  split at hp
  · exact List.dropLast_subset ls hp
  · exact hp

lemma pySplitlines_no_nl (s : List Char) (p : List Char)
    (hp : p ∈ pySplitlines s) : ∀ c ∈ p, c ≠ '\n' :=
  splitOnNLAux_no_nl (normalizeNL s) [] p (by simp) (dropLastEmpty_mem _ _ hp)

lemma populateStep_idem (s e : List Char) :
    populateStep s (populateStep s e) = populateStep s e := by
  cases h : pySplitlines s <;> simp [populateStep, h]

lemma shotsValue_bounds (raw : Nat) :
    100 ≤ shotsValue raw ∧ shotsValue raw ≤ 5000 := by
  unfold shotsValue sliderValue
  exact ⟨Nat.le_max_left _ _,
    Nat.max_le.mpr ⟨by norm_num, Nat.min_le_left _ _⟩⟩

/-! ## Claims -/

/-- C1: the exec namespace is handed exactly one explicit binding, Circuit,
but because the globals dict lacks a builtins key Python injects the full
builtins module, so source text reaching for capabilities outside the
exposed namespace (here the import machinery) executes successfully and
compile returns a circuit instead of failing; only the spec-required
sandbox, with no builtins reachable, rejects it. -/
theorem sandbox_builtins_leak :
    compileSource progImportOs = .ok (.vCircuit [.measure 0]) ∧
    compileSandboxed progImportOs = .error (.importError "os") := by decide

/-- C2, counterexample: the source text defining build to return five
passes compile, which hands the number back unvalidated instead of
failing with a CompileError; the failure only surfaces at the backend
dispatch, through the same single error display. -/
theorem compile_no_result_validation :
    compileSource progReturn5 = .ok (.vInt 5) ∧
    (runHandler (fun _ _ _ => .ok []) progReturn5 .simulator 1000).1.errors =
      [errorDisplay invalidCircuitMessage] := by decide

/-- C2, amended: compile propagates any exec failure, fails with a
KeyError when no build binding exists, fails when calling the build value
with zero arguments fails (not invocable, wrong arity, or a raising
body), and on success returns exactly the value build returned with no
validation; those are the only failure modes. -/
theorem compile_characterization :
    (∀ (src : Source) (er : PyErr),
        execSource pythonBuiltins src = .error er →
        compileSource src = .error er) ∧
    (∀ (src : Source) (env : Env),
        execSource pythonBuiltins src = .ok env →
        lookupEnv env "build" = none →
        compileSource src = .error (.keyError "build")) ∧
    (∀ (src : Source) (env : Env) (v : Val) (er : PyErr),
        execSource pythonBuiltins src = .ok env →
        lookupEnv env "build" = some v →
        callZeroTop pythonBuiltins env v = .error er →
        compileSource src = .error er) ∧
    (∀ (src : Source) (env : Env) (v r : Val),
        execSource pythonBuiltins src = .ok env →
        lookupEnv env "build" = some v →
        callZeroTop pythonBuiltins env v = .ok r →
        compileSource src = .ok r) ∧
    (∀ (src : Source) (er : PyErr),
        compileSource src = .error er →
        execSource pythonBuiltins src = .error er ∨
        ∃ env, execSource pythonBuiltins src = .ok env ∧
          ((lookupEnv env "build" = none ∧ er = .keyError "build") ∨
           ∃ v, lookupEnv env "build" = some v ∧
             callZeroTop pythonBuiltins env v = .error er)) := by
  refine ⟨?_, ?_, ?_, ?_, ?_⟩
  · intro src er h
    simp [compileSource, compileWith, h]
  · intro src env h1 h2
    simp [compileSource, compileWith, h1, h2]
  · intro src env v er h1 h2 h3
    simp [compileSource, compileWith, h1, h2, h3]
  · intro src env v r h1 h2 h3
    simp [compileSource, compileWith, h1, h2, h3]
  · intro src er h
    cases hx : execSource pythonBuiltins src with
    | error e2 =>
      have hcomp : compileSource src = .error e2 := by
        simp [compileSource, compileWith, hx]
      rw [hcomp] at h
      injection h with he
      subst he
      exact Or.inl rfl
    | ok env =>
      right
      refine ⟨env, rfl, ?_⟩
      cases hl : lookupEnv env "build" with
      | none =>
        have hcomp : compileSource src = .error (.keyError "build") := by
          simp [compileSource, compileWith, hx, hl]
        rw [hcomp] at h
        injection h with he
        exact Or.inl ⟨rfl, he.symm⟩
      | some v =>
        have hcomp : compileSource src = callZeroTop pythonBuiltins env v := by
          simp [compileSource, compileWith, hx, hl]
        exact Or.inr ⟨v, rfl, by rw [← hcomp]; exact h⟩

/-- C2, witness: the measurement-lesson program exercises the success
clause of the characterization at concrete inputs. -/
theorem compile_characterization_witness :
    compileSource progBuildOk = .ok (.vCircuit [.measure 0]) :=
  compile_characterization.2.2.2.1 progBuildOk
    [("build", .vFunc 0
        [.assign "circuit" (.callZero (.name "Circuit")),
         .exprStmt (.methodCall "circuit" "measure" [0]),
         .ret (.name "circuit")]),
     ("Circuit", .vCircuitCtor)]
    (.vFunc 0
      [.assign "circuit" (.callZero (.name "Circuit")),
       .exprStmt (.methodCall "circuit" "measure" [0]),
       .ret (.name "circuit")])
    (.vCircuit [.measure 0]) (by decide) (by decide) (by decide)

/-- C3: each of the four reference builders returns the circuit holding
exactly the specified operation sequence, and the textual rendering of
each reflects that sequence. -/
theorem builders_instruction_sequences :
    build_measure = [Instr.measure 0] ∧
    build_hadamard = [Instr.h 0, Instr.measure 0] ∧
    build_pauli_x = [Instr.x 0, Instr.measure 0] ∧
    build_cnot = [Instr.cnot 0 1, Instr.measure 0, Instr.measure 1] ∧
    renderCircuit build_measure = "measure 0" ∧
    renderCircuit build_hadamard = "h 0; measure 0" ∧
    renderCircuit build_pauli_x = "x 0; measure 0" ∧
    renderCircuit build_cnot = "cnot 0 1; measure 0; measure 1" := by
  refine ⟨rfl, rfl, rfl, rfl, ?_, ?_, ?_, ?_⟩ <;> decide

/-- C4: for a snippet of at least one line, the populate result has
exactly as many lines as the snippet, line zero unchanged and every later
line carrying exactly one additional indentation unit, whatever the prior
editor contents. -/
theorem populate_line_structure (s e f : List Char) (rest : List (List Char))
    (h : pySplitlines s = f :: rest) :
    splitOnNL (populateStep s e) = f :: rest.map (fun ln => indentUnit ++ ln) ∧
    (splitOnNL (populateStep s e)).length = (pySplitlines s).length := by
  have hstep : populateStep s e = joinNL (f :: rest.map (fun ln => indentUnit ++ ln)) := by
    unfold populateStep
    rw [h]
  have hmem : ∀ p ∈ f :: rest.map (fun ln => indentUnit ++ ln), ∀ c ∈ p, c ≠ '\n' := by
    intro p hp
    rcases List.mem_cons.mp hp with rfl | h2
    · exact pySplitlines_no_nl s p (by rw [h]; exact List.mem_cons_self _ _)
    · rcases List.mem_map.mp h2 with ⟨ln, hln, rfl⟩
      intro c hc
      rcases List.mem_append.mp hc with hci | hcl
      · have hsp : c = ' ' := by
          simpa [indentUnit] using hci
        subst hsp
        decide
      · exact pySplitlines_no_nl s ln
          (by rw [h]; exact List.mem_cons_of_mem _ hln) c hcl
  have hmain : splitOnNL (populateStep s e) = f :: rest.map (fun ln => indentUnit ++ ln) := by
    rw [hstep]
    exact splitOnNL_joinNL _ (by simp) hmem
  refine ⟨hmain, ?_⟩
  rw [hmain, h]
  simp

/-- C4, witness: a two-line snippet, populated over nonempty prior
contents. -/
theorem populate_line_structure_witness :
    splitOnNL (populateStep "a\nb".toList "z".toList) =
      "a".toList :: ["b".toList].map (fun ln => indentUnit ++ ln) ∧
    (splitOnNL (populateStep "a\nb".toList "z".toList)).length =
      (pySplitlines "a\nb".toList).length :=
  populate_line_structure "a\nb".toList "z".toList "a".toList ["b".toList] (by decide)

/-- C5, counterexample: as a transformation of text, populate applied to
its own output compounds the indentation of the second line, so it is not
idempotent as stated. -/
theorem populate_compounds_indentation :
    populate (populate "a\nb".toList) ≠ populate "a\nb".toList := by decide

/-- C5, amended: the populate handler is idempotent at the session level:
pressing the populate button twice for the same lesson leaves the same
session state as pressing it once, because the editor text is derived
from the immutable snippet, never from the current editor state. -/
theorem populate_click_idempotent :
    ∀ (oracle : Oracle) (dc : List Char) (sess : Session),
      (tutorialStep oracle dc (tutorialStep oracle dc sess .populateClick).1
        .populateClick).1 = (tutorialStep oracle dc sess .populateClick).1 := by
  intro oracle dc sess
  have h1 : (tutorialStep oracle dc sess .populateClick).1 =
      { sess with editor := populateStep dc sess.editor } := rfl
  rw [h1]
  have h2 : (tutorialStep oracle dc { sess with editor := populateStep dc sess.editor }
      .populateClick).1 =
      { sess with editor := populateStep dc (populateStep dc sess.editor) } := rfl
  rw [h2, populateStep_idem]

/-- C6, counterexample: populating from an empty snippet does not clear
the editor: prior contents survive, refuting that the editor is empty
afterwards regardless of prior contents. -/
theorem populate_empty_keeps_prior_text :
    populateStep "".toList "x".toList = "x".toList ∧
    populateStep "".toList "x".toList ≠ "".toList := by decide

/-- C6, amended: a populate request with an empty snippet makes no
assignment at all: the session, its editor contents included, is exactly
as before, and is therefore empty only when it already was. -/
theorem populate_empty_noop :
    ∀ (oracle : Oracle) (sess : Session),
      (tutorialStep oracle "".toList sess .populateClick).1 = sess := by
  intro oracle sess
  have hpop : populateStep "".toList sess.editor = sess.editor := by
    have h : pySplitlines ([] : List Char) = [] := by decide
    simp [populateStep, h]
  have h1 : (tutorialStep oracle "".toList sess .populateClick).1 =
      { sess with editor := populateStep "".toList sess.editor } := rfl
  rw [h1, hpop]

/-- C7: for each of the four lessons, taking the displayed reference
snippet (the builder docstring after getdoc), populating the editor from
it and compiling the resulting text yields exactly the circuit the
builder itself returns. -/
theorem lesson_snippets_match_builders :
    LESSONS.map LessonEntry.builder =
      [build_measure, build_hadamard, build_pauli_x, build_cnot] ∧
    LESSONS.map LessonEntry.doc =
      [doc_build_measure, doc_build_hadamard, doc_build_pauli_x, doc_build_cnot] ∧
    compileFromDoc doc_build_measure = .ok (.vCircuit build_measure) ∧
    compileFromDoc doc_build_hadamard = .ok (.vCircuit build_hadamard) ∧
    compileFromDoc doc_build_pauli_x = .ok (.vCircuit build_pauli_x) ∧
    compileFromDoc doc_build_cnot = .ok (.vCircuit build_cnot) := by
  exact ⟨rfl, rfl, by decide, by decide, by decide, by decide⟩

/-- C8: whenever a run hands a request to a backend, its shot count is
the slider value, which lies within the declared range 100 to 5000. -/
theorem shots_within_bounds :
    ∀ (oracle : Oracle) (src : Source) (b : BackendChoice) (raw : Nat)
      (req : RunRequest),
      (runAction oracle src b raw).2 = some req →
      100 ≤ req.shots ∧ req.shots ≤ 5000 := by
  intro oracle src b raw req h
  have hs : req.shots = shotsValue raw := by
    unfold runAction runHandler at h
    cases hc : compileSource src with
    | error e => rw [hc] at h; cases h
    | ok v =>
      rw [hc] at h
      cases v <;> simp at h
      case vCircuit c =>
        cases ho : oracle (chooseDevice b) c (shotsValue raw) with
        | ok counts => rw [ho] at h; cases h; rfl
        | error m => rw [ho] at h; cases h; rfl
  rw [hs]
  exact shotsValue_bounds raw

/-- C8, witness: a successful simulator run at raw slider position 1000
submits a request whose shot count obeys the bound. -/
theorem shots_within_bounds_witness :
    100 ≤ (RunRequest.mk .simulator [Instr.measure 0] 1000).shots ∧
    (RunRequest.mk .simulator [Instr.measure 0] 1000).shots ≤ 5000 :=
  shots_within_bounds (fun _ _ _ => .ok [("0", 1000)]) progBuildOk .simulator 1000
    ⟨.simulator, [Instr.measure 0], 1000⟩ (by decide)

/-- C9: a run that ends in an error leaves the session state, the editor
contents included, exactly as it was. -/
theorem run_error_preserves_editor :
    ∀ (oracle : Oracle) (dc : List Char) (sess : Session) (src : Source)
      (b : BackendChoice) (raw : Nat),
      (tutorialStep oracle dc sess (.runClick src b raw)).2.errors ≠ [] →
      (tutorialStep oracle dc sess (.runClick src b raw)).1.editor = sess.editor := by
  intro oracle dc sess src b raw _
  rfl

/-- C9, witness: a run whose compile step fails (no build binding) leaves
the concrete editor text in place. -/
theorem run_error_preserves_editor_witness :
    (tutorialStep (fun _ _ _ => .error "backend unreachable") []
      ⟨true, "x".toList⟩ (.runClick (.parsed []) .simulator 7)).1.editor =
      "x".toList :=
  run_error_preserves_editor (fun _ _ _ => .error "backend unreachable") []
    ⟨true, "x".toList⟩ (.parsed []) .simulator 7 (by decide)

/-- C10: every run either fails, displaying exactly one error notice that
attributes the underlying message to the build function with no success
notice and no chart, or completes with no error notice, the success
notice carrying the backend label, and exactly one chart. -/
theorem run_single_error_display :
    ∀ (oracle : Oracle) (src : Source) (b : BackendChoice) (shots : Nat),
      (∃ m, (runHandler oracle src b shots).1.errors = [errorDisplay m] ∧
        (runHandler oracle src b shots).1.successes = [] ∧
        (runHandler oracle src b shots).1.charts = []) ∨
      (∃ c counts, compileSource src = .ok (.vCircuit c) ∧
        oracle (chooseDevice b) c shots = .ok counts ∧
        (runHandler oracle src b shots).1.errors = [] ∧
        (runHandler oracle src b shots).1.successes =
          ["Results (" ++ backendLabel b ++ "):"] ∧
        (runHandler oracle src b shots).1.charts = [counts]) := by
  intro oracle src b shots
  cases hc : compileSource src with
  | error e =>
    have hrun : (runHandler oracle src b shots).1 =
        ⟨[], [], [errorDisplay e.message], []⟩ := by
      simp [runHandler, hc]
    left
    exact ⟨e.message, by rw [hrun], by rw [hrun], by rw [hrun]⟩
  | ok v =>
    cases v with
    | vCircuit c =>
      cases ho : oracle (chooseDevice b) c shots with
      | ok counts =>
        have hrun : (runHandler oracle src b shots).1 =
            ⟨[pyStrVal (.vCircuit c)], ["Results (" ++ backendLabel b ++ "):"],
             [], [counts]⟩ := by
          simp [runHandler, hc, ho]
        right
        exact ⟨c, counts, rfl, ho, by rw [hrun], by rw [hrun], by rw [hrun]⟩
      | error m =>
        have hrun : (runHandler oracle src b shots).1 =
            ⟨[pyStrVal (.vCircuit c)], [], [errorDisplay m], []⟩ := by
          simp [runHandler, hc, ho]
        left
        exact ⟨m, by rw [hrun], by rw [hrun], by rw [hrun]⟩
    | vCircuitCtor =>
      have hrun : (runHandler oracle src b shots).1 =
          ⟨[pyStrVal .vCircuitCtor], [], [errorDisplay invalidCircuitMessage], []⟩ := by
        simp [runHandler, hc]
      left
      exact ⟨invalidCircuitMessage, by rw [hrun], by rw [hrun], by rw [hrun]⟩
    | vInt n =>
      have hrun : (runHandler oracle src b shots).1 =
          ⟨[pyStrVal (.vInt n)], [], [errorDisplay invalidCircuitMessage], []⟩ := by
        simp [runHandler, hc]
      left
      exact ⟨invalidCircuitMessage, by rw [hrun], by rw [hrun], by rw [hrun]⟩
    | vNone =>
      have hrun : (runHandler oracle src b shots).1 =
          ⟨[pyStrVal .vNone], [], [errorDisplay invalidCircuitMessage], []⟩ := by
        simp [runHandler, hc]
      left
      exact ⟨invalidCircuitMessage, by rw [hrun], by rw [hrun], by rw [hrun]⟩
    | vFunc p body =>
      have hrun : (runHandler oracle src b shots).1 =
          ⟨[pyStrVal (.vFunc p body)], [], [errorDisplay invalidCircuitMessage], []⟩ := by
        simp [runHandler, hc]
      left
      exact ⟨invalidCircuitMessage, by rw [hrun], by rw [hrun], by rw [hrun]⟩
    | vModule m =>
      have hrun : (runHandler oracle src b shots).1 =
          ⟨[pyStrVal (.vModule m)], [], [errorDisplay invalidCircuitMessage], []⟩ := by
        simp [runHandler, hc]
      left
      exact ⟨invalidCircuitMessage, by rw [hrun], by rw [hrun], by rw [hrun]⟩
    | vBuiltin bn =>
      have hrun : (runHandler oracle src b shots).1 =
          ⟨[pyStrVal (.vBuiltin bn)], [], [errorDisplay invalidCircuitMessage], []⟩ := by
        simp [runHandler, hc]
      left
      exact ⟨invalidCircuitMessage, by rw [hrun], by rw [hrun], by rw [hrun]⟩

end QubitQuest

